import Mathlib

/-!
Verification of the derived document-metrics computation of the legucid
front end: the backend-response normalizer and risk aggregation of the
upload component, the duplicated time-saved estimator of the Dashboard
view, and the clause search of the detailed-analysis view.

Modelling conventions, chosen so that the embedded functions mirror the
TypeScript source line by line:
  * JavaScript numbers are embedded as rationals where the source does
    real arithmetic (the time-saved formula) and as integers where the
    source only counts, compares and defaults.
  * the JavaScript expression x || d on numbers is embedded by jsNumOr:
    an absent field and the number 0 both fall back to d, while every
    other number, negative numbers included, is kept.
  * the JavaScript expression x || d on strings is embedded by jsStrOr:
    an absent field and the empty string both fall back to d.
  * Math.floor is the rational floor; Math.round x is the floor of
    x + 1/2, which agrees with the JavaScript semantics of rounding
    half toward positive infinity.
  * JavaScript strings are Lean strings; the searches of the
    detailed-analysis view work on the underlying character lists, with
    toLowerCase embedded as a map of Char.toLower, split on a single
    space embedded as List.splitOn of the space character (empty pieces
    are kept, as in JavaScript), and String.prototype.includes embedded
    as the contiguous-sublist test matchFrom.
  * fields of the backend payload that no stated property reads
    (gcs_uri, upload_time, the spread of the raw risk_assessment
    object) are omitted from the record types.
-/

/-- Embeds the JavaScript idiom x || d for a possibly absent number x:
absent and 0 give d, every other value is kept. -/
def jsNumOr (x : Option Int) (d : Int) : Int :=
  match x with
  | none => d
  | some n => if n = 0 then d else n

/-- Embeds the JavaScript idiom x || d for a possibly absent string x:
absent and the empty string give d, every other value is kept. -/
def jsStrOr (x : Option String) (d : String) : String :=
  match x with
  | none => d
  | some s => if s = "" then d else s

namespace DocumentUpload

/-- The quantity S of the time-saved formula in the upload component:
S = pages times 2 plus clauses times 1.5. -/
def sVal (pages clauses : ℚ) : ℚ :=
  pages * 2 + clauses * 1.5

/-- The quantity timeSavedHours of the time-saved formula:
1 + S / (S + 50). -/
def timeSavedHoursQ (s : ℚ) : ℚ :=
  1 + s / (s + 50)

/-- calculateTimeSaved of the upload component: computes S and
timeSavedHours, splits into floor hours and rounded residual minutes,
and formats the result string. -/
def calculateTimeSaved (pages clauses : ℚ) : String :=
  let S : ℚ := sVal pages clauses
  let timeSavedHours : ℚ := timeSavedHoursQ S
  let hours : Int := ⌊timeSavedHours⌋
  let minutes : Int := ⌊(timeSavedHours - (hours : ℚ)) * 60 + 1/2⌋
  toString hours ++ " hr " ++ toString minutes ++ " min"

end DocumentUpload

namespace Dashboard

/-- calculateTimeSaved as re-implemented in the Dashboard view, written
out independently of the upload component for the duplication claim. -/
def calculateTimeSaved (pages clauses : ℚ) : String :=
  let S : ℚ := (pages * 2) + (clauses * 1.5)
  let timeSavedHours : ℚ := 1 + (S / (S + 50))
  let hours : Int := ⌊timeSavedHours⌋
  let minutes : Int := ⌊(timeSavedHours - (hours : ℚ)) * 60 + 1/2⌋
  toString hours ++ " hr " ++ toString minutes ++ " min"

end Dashboard

/-- One clause assessment of the backend payload, with the two fields
the upload component reads: risk_level and reasoning.  A missing
reasoning is embedded as the empty string, which the source treats the
same way through its || fallback. -/
structure ClauseAssessment where
  risk_level : String
  reasoning : String
deriving DecidableEq

/-- One impact entry of a risk bucket, mirroring the RiskImpact record
of the front-end types. -/
structure RiskImpact where
  id : String
  name : String
  description : String
  risk : String
deriving DecidableEq

/-- One risk bucket, mirroring the RiskData record of the front-end
types. -/
structure RiskData where
  name : String
  value : Nat
  color : String
  impacts : List RiskImpact
deriving DecidableEq

/-- The risk_summary object of the backend payload, with the four count
fields the upload component reads. -/
structure RiskSummary where
  high_risk_clauses : Option Int
  medium_risk_clauses : Option Int
  low_risk_clauses : Option Int
  total_clauses_assessed : Option Int
deriving DecidableEq

/-- The risk_assessment object of the backend payload, with the two
fields the claims read. -/
structure RiskAssessmentPayload where
  document_name : Option String
  clause_assessments : Option (List ClauseAssessment)
deriving DecidableEq

/-- A backend response payload as consumed by processResponseData. -/
structure ResponsePayload where
  risk_assessment : Option RiskAssessmentPayload
  risk_summary : Option RiskSummary
  page_count : Option Int
deriving DecidableEq

/-- The normalized analysis record, mirroring the DocumentAnalysisData
record of the front-end types restricted to the fields the claims
read. -/
structure DocumentAnalysisData where
  document_name : String
  total_clauses : Int
  flagged_clauses : Int
  time_saved : String
  risk_data : List RiskData
  page_count : Int
deriving DecidableEq

/-- The per-bucket impact list built by processResponseData: one entry
per clause of the level list, with id level-index, display name
Clause index+1, and the reasoning with its level-specific fallback. -/
def riskImpactsOf (level defaultDesc : String) (l : List ClauseAssessment) : List RiskImpact :=
  l.enum.map (fun p =>
    ⟨level ++ "-" ++ toString p.1,
     "Clause " ++ toString (p.1 + 1),
     if p.2.reasoning = "" then defaultDesc else p.2.reasoning,
     level⟩)

/-- Number of clause assessments of a list whose risk_level is the
given string; the bucket values of processRiskData are exactly these
filter lengths. -/
def countLevel (level : String) (cas : List ClauseAssessment) : Nat :=
  (cas.filter (fun c => c.risk_level == level)).length

/-- The riskData construction of processResponseData, lines 82 to 139
of the upload component: a bucket for a level is pushed only when the
backend summary count for that level is positive, and its value is the
number of assessments of the list carrying that level. -/
def processRiskData (highRiskClauses mediumRiskClauses lowRiskClauses : Int)
    (clauseAssessments : List ClauseAssessment) : List RiskData :=
  (if highRiskClauses > 0 then
    [⟨"High",
      (clauseAssessments.filter (fun c => c.risk_level == "high")).length,
      "#ef4444",
      riskImpactsOf "high" "High risk clause identified"
        (clauseAssessments.filter (fun c => c.risk_level == "high"))⟩]
   else []) ++
  (if mediumRiskClauses > 0 then
    [⟨"Medium",
      (clauseAssessments.filter (fun c => c.risk_level == "medium")).length,
      "#eab308",
      riskImpactsOf "medium" "Medium risk clause identified"
        (clauseAssessments.filter (fun c => c.risk_level == "medium"))⟩]
   else []) ++
  (if lowRiskClauses > 0 then
    [⟨"Low",
      (clauseAssessments.filter (fun c => c.risk_level == "low")).length,
      "#22c55e",
      riskImpactsOf "low" "Low risk clause identified"
        (clauseAssessments.filter (fun c => c.risk_level == "low"))⟩]
   else [])

/-- processResponseData of the upload component: reads the summary
counts and the assessment list with JavaScript || defaults, builds the
risk buckets, derives flagged_clauses, total_clauses, page_count and
the time-saved string, and assembles the normalized record. -/
def processResponseData (responseData : ResponsePayload) (fileName : String) :
    DocumentAnalysisData :=
  let riskAssessment := responseData.risk_assessment.getD ⟨none, none⟩
  let riskSummary := responseData.risk_summary.getD ⟨none, none, none, none⟩
  let highRiskClauses := jsNumOr riskSummary.high_risk_clauses 0
  let mediumRiskClauses := jsNumOr riskSummary.medium_risk_clauses 0
  let lowRiskClauses := jsNumOr riskSummary.low_risk_clauses 0
  let totalClauses := jsNumOr riskSummary.total_clauses_assessed 0
  let clauseAssessments := riskAssessment.clause_assessments.getD []
  let riskData := processRiskData highRiskClauses mediumRiskClauses lowRiskClauses
    clauseAssessments
  let flaggedClauses := highRiskClauses + mediumRiskClauses
  let pageCount := jsNumOr responseData.page_count 24
  let timeSaved := DocumentUpload.calculateTimeSaved (pageCount : ℚ) (totalClauses : ℚ)
  ⟨jsStrOr riskAssessment.document_name fileName,
   totalClauses,
   flaggedClauses,
   timeSaved,
   riskData,
   pageCount⟩

namespace DetailedAnalysis

/-- The risk tag of a clause of the detailed-analysis view; the
TypeScript type confines it to the three literals. -/
inductive ClauseRisk where
  | high
  | medium
  | low
deriving DecidableEq

/-- A clause of the detailed-analysis view, mirroring its Clause
record. -/
structure Clause where
  title : String
  risk : ClauseRisk
  summary : String
  impact : String
  fullText : String
  marketComparison : String
  recommendations : List String
  riskDetails : String
deriving DecidableEq

/-- The riskOrder table of sortClausesByRisk. -/
def riskOrder : ClauseRisk → Nat
  | .high => 0
  | .medium => 1
  | .low => 2

/-- sortClausesByRisk: the stable comparator sort of the view, embedded
as a stable merge sort on the riskOrder keys. -/
def sortClausesByRisk (clauseList : List Clause) : List Clause :=
  clauseList.mergeSort (fun a b => decide (riskOrder a.risk ≤ riskOrder b.risk))

/-- Embeds String.prototype.includes checked at the head position: the
pattern is a prefix of the text. -/
def matchHere : List Char → List Char → Bool
  | [], _ => true
  | _ :: _, [] => false
  | a :: p, b :: s => a == b && matchHere p s

/-- Embeds String.prototype.includes: the pattern occurs contiguously
somewhere in the text. -/
def matchFrom (pat : List Char) : List Char → Bool
  | [] => matchHere pat []
  | b :: s => matchHere pat (b :: s) || matchFrom pat s

/-- The searchTerms of performSemanticSearch: the lowercased query
split on the space character, empty pieces kept as in JavaScript. -/
def searchTermsOf (query : String) : List (List Char) :=
  (query.data.map Char.toLower).splitOn ' '

/-- The searchableText of performSemanticSearch: title, summary and
impact joined by spaces and lowercased. -/
def searchableTextOf (clause : Clause) : List Char :=
  (clause.title ++ " " ++ clause.summary ++ " " ++ clause.impact).data.map Char.toLower

/-- The filter predicate of performSemanticSearch: some search term
occurs in the searchable text. -/
def clauseMatches (query : String) (clause : Clause) : Bool :=
  (searchTermsOf query).any (fun term => matchFrom term (searchableTextOf clause))

/-- performSemanticSearch of the detailed-analysis view: a blank query
(the JavaScript guard query.trim() being falsy, that is, every
character whitespace) yields the full sorted list, any other query
filters by clauseMatches and sorts the result. -/
def performSemanticSearch (clauses : List Clause) (query : String) : List Clause :=
  if query.data.all Char.isWhitespace then
    sortClausesByRisk clauses
  else
    sortClausesByRisk (clauses.filter (clauseMatches query))

/-- Written from the words of the claim, not from the source, for the
comparison in claim C8: a clause matches when its lowercased searchable
text contains at least one nonempty whitespace-delimited token of the
lowercased query. -/
def specTokenMatch (query : String) (clause : Clause) : Bool :=
  (((query.data.map Char.toLower).splitOnP Char.isWhitespace).filter
    (fun t => !t.isEmpty)).any (fun term => matchFrom term (searchableTextOf clause))

end DetailedAnalysis

/-- The empty backend payload: every consumed field absent. -/
def emptyPayload : ResponsePayload := ⟨none, none, none⟩

/-- A payload whose summary reports one high-risk clause and nothing
else. -/
def payloadHighOnly : ResponsePayload := ⟨none, some ⟨some 1, none, none, none⟩, none⟩

/-- A payload carrying one high-risk clause assessment and no summary
at all. -/
def payloadOneHigh : ResponsePayload :=
  ⟨some ⟨none, some [⟨"high", "r"⟩]⟩, none, none⟩

/-- A payload whose page_count is the negative number -5. -/
def payloadNegPage : ResponsePayload := ⟨none, none, some (-5)⟩

/-- An assessment list with one recognized high-risk clause and one
clause of an unrecognized level. -/
def casMixed : List ClauseAssessment := [⟨"high", "r1"⟩, ⟨"unknown", "r2"⟩]

/-- A payload carrying casMixed as its assessment list and no
summary. -/
def payloadMixed : ResponsePayload := ⟨some ⟨none, some casMixed⟩, none, none⟩

/-- A clause of the detailed-analysis view whose searchable text
mentions termination. -/
def clTermination : DetailedAnalysis.Clause :=
  ⟨"Early Termination", .high, "termination rights", "penalty exposure", "", "", [], ""⟩

/-- A clause whose title, summary and impact are the single letters a,
b and c, so its searchable text is a b c. -/
def clauseABC : DetailedAnalysis.Clause :=
  ⟨"a", .high, "b", "c", "", "", [], ""⟩

theorem calculateTimeSaved_def (p c : ℚ) :
    DocumentUpload.calculateTimeSaved p c =
      toString ⌊DocumentUpload.timeSavedHoursQ (DocumentUpload.sVal p c)⌋ ++ " hr " ++
      toString ⌊(DocumentUpload.timeSavedHoursQ (DocumentUpload.sVal p c) -
        ((⌊DocumentUpload.timeSavedHoursQ (DocumentUpload.sVal p c)⌋ : Int) : ℚ)) * 60 + 1/2⌋ ++
      " min" := rfl

/-- Claim C4: the estimator returns 1 hr 33 min for 24 pages and 10
clauses and 1 hr 0 min for 0 pages and 0 clauses, following S equal to
pageCount times 2 plus totalClauses times 1.5, timeSavedHours equal to
1 + S/(S+50), hours the floor and minutes the rounded residual. -/
theorem time_saved_worked_examples :
    DocumentUpload.sVal 24 10 = 63
  ∧ DocumentUpload.calculateTimeSaved 24 10 = "1 hr 33 min"
  ∧ DocumentUpload.calculateTimeSaved 0 0 = "1 hr 0 min" := by
  have hs : DocumentUpload.sVal 24 10 = 63 := by
    unfold DocumentUpload.sVal; norm_num
  have ht : DocumentUpload.timeSavedHoursQ 63 = 176/113 := by
    unfold DocumentUpload.timeSavedHoursQ; norm_num
  have hf1 : ⌊(176/113 : ℚ)⌋ = 1 := by
    rw [Int.floor_eq_iff]; norm_num
  have hm1 : ⌊((176/113 : ℚ) - ((1 : Int) : ℚ)) * 60 + 1/2⌋ = 33 := by
    rw [Int.floor_eq_iff]; norm_num
  have hs0 : DocumentUpload.sVal 0 0 = 0 := by
    unfold DocumentUpload.sVal; norm_num
  have ht0 : DocumentUpload.timeSavedHoursQ 0 = 1 := by
    unfold DocumentUpload.timeSavedHoursQ; norm_num
  have hf0 : ⌊(1 : ℚ)⌋ = 1 := by
    rw [Int.floor_eq_iff]; norm_num
  have hm0 : ⌊((1 : ℚ) - ((1 : Int) : ℚ)) * 60 + 1/2⌋ = 0 := by
    rw [Int.floor_eq_iff]; norm_num
  refine ⟨hs, ?_, ?_⟩
  · rw [calculateTimeSaved_def, hs, ht, hf1, hm1]
    decide
  · rw [calculateTimeSaved_def, hs0, ht0, hf0, hm0]
    decide

/-- Claim C10: at 25000 pages and 0 clauses the floor of timeSavedHours
is 1 while the rounded minutes reach 60, so the estimator returns the
string 1 hr 60 min instead of rolling over to 2 hr 0 min. -/
theorem minutes_can_reach_sixty :
    DocumentUpload.calculateTimeSaved 25000 0 = "1 hr 60 min"
  ∧ DocumentUpload.calculateTimeSaved 25000 0 ≠ "2 hr 0 min"
  ∧ ⌊DocumentUpload.timeSavedHoursQ (DocumentUpload.sVal 25000 0)⌋ = 1
  ∧ ⌊(DocumentUpload.timeSavedHoursQ (DocumentUpload.sVal 25000 0) -
      ((1 : Int) : ℚ)) * 60 + 1/2⌋ = 60 := by
  have hs : DocumentUpload.sVal 25000 0 = 50000 := by
    unfold DocumentUpload.sVal; norm_num
  have ht : DocumentUpload.timeSavedHoursQ 50000 = 2001/1001 := by
    unfold DocumentUpload.timeSavedHoursQ; norm_num
  have hf : ⌊(2001/1001 : ℚ)⌋ = 1 := by
    rw [Int.floor_eq_iff]; norm_num
  have hm : ⌊((2001/1001 : ℚ) - ((1 : Int) : ℚ)) * 60 + 1/2⌋ = 60 := by
    rw [Int.floor_eq_iff]; norm_num
  refine ⟨?_, ?_, ?_, ?_⟩
  · rw [calculateTimeSaved_def, hs, ht, hf, hm]
    decide
  · rw [calculateTimeSaved_def, hs, ht, hf, hm]
    decide
  · rw [hs, ht, hf]
  · rw [hs, ht, hm]

/-- Claim C9: the time-saved computation re-implemented in the
Dashboard view agrees with the one in the upload component on every
input pair. -/
theorem duplicated_time_saved_agree :
    ∀ pages clauses : ℚ,
      DocumentUpload.calculateTimeSaved pages clauses =
        Dashboard.calculateTimeSaved pages clauses :=
  fun _ _ => rfl

theorem timeSavedHoursQ_lt (s1 s2 : ℚ) (h0 : 0 ≤ s1) (h12 : s1 < s2) :
    DocumentUpload.timeSavedHoursQ s1 < DocumentUpload.timeSavedHoursQ s2 := by
  unfold DocumentUpload.timeSavedHoursQ
  have hd1 : (0:ℚ) < s1 + 50 := by linarith
  have hd2 : (0:ℚ) < s2 + 50 := by linarith
  have h : s1 / (s1 + 50) < s2 / (s2 + 50) := by
    rw [div_lt_div_iff₀ hd1 hd2]
    nlinarith
  linarith

theorem sVal_nonneg (p c : ℚ) (hp : 0 ≤ p) (hc : 0 ≤ c) :
    0 ≤ DocumentUpload.sVal p c := by
  unfold DocumentUpload.sVal
  have h2 : 0 ≤ p * 2 := by linarith
  have h3 : 0 ≤ c * 1.5 := by nlinarith
  linarith

/-- Claim C5: timeSavedHours is strictly increasing in S on the
nonnegative half line, bounded in the interval from 1 inclusive to 2
exclusive there, and for fixed clauses a larger page count never
decreases it. -/
theorem time_saved_monotone_bounded :
    (∀ s1 s2 : ℚ, 0 ≤ s1 → s1 < s2 →
      DocumentUpload.timeSavedHoursQ s1 < DocumentUpload.timeSavedHoursQ s2)
  ∧ (∀ s : ℚ, 0 ≤ s →
      1 ≤ DocumentUpload.timeSavedHoursQ s ∧ DocumentUpload.timeSavedHoursQ s < 2)
  ∧ (∀ p1 p2 c : ℚ, 0 ≤ p1 → 0 ≤ c → p1 ≤ p2 →
      DocumentUpload.timeSavedHoursQ (DocumentUpload.sVal p1 c)
        ≤ DocumentUpload.timeSavedHoursQ (DocumentUpload.sVal p2 c)) := by
  refine ⟨timeSavedHoursQ_lt, ?_, ?_⟩
  · intro s h0
    unfold DocumentUpload.timeSavedHoursQ
    have hd : (0:ℚ) < s + 50 := by linarith
    constructor
    · have h : 0 ≤ s / (s + 50) := div_nonneg h0 (le_of_lt hd)
      linarith
    · have h : s / (s + 50) < 1 := (div_lt_one hd).mpr (by linarith)
      linarith
  · intro p1 p2 c hp1 hc h12
    rcases eq_or_lt_of_le h12 with he | hlt
    · rw [he]
    · refine le_of_lt (timeSavedHoursQ_lt _ _ (sVal_nonneg p1 c hp1 hc) ?_)
      unfold DocumentUpload.sVal
      linarith

/-- Witness for claim C5 at concrete inputs. -/
theorem time_saved_monotone_bounded_witness :
    DocumentUpload.timeSavedHoursQ 0 < DocumentUpload.timeSavedHoursQ 63
  ∧ (1 ≤ DocumentUpload.timeSavedHoursQ 63 ∧ DocumentUpload.timeSavedHoursQ 63 < 2)
  ∧ DocumentUpload.timeSavedHoursQ (DocumentUpload.sVal 24 10)
      ≤ DocumentUpload.timeSavedHoursQ (DocumentUpload.sVal 25 10) :=
  ⟨time_saved_monotone_bounded.1 0 63 (by norm_num) (by norm_num),
   time_saved_monotone_bounded.2.1 63 (by norm_num),
   time_saved_monotone_bounded.2.2 24 25 10 (by norm_num) (by norm_num) (by norm_num)⟩

theorem countLevel_sum (cas : List ClauseAssessment) :
    countLevel "high" cas + countLevel "medium" cas + countLevel "low" cas
      = (cas.filter (fun c => c.risk_level == "high" || c.risk_level == "medium"
          || c.risk_level == "low")).length := by
  unfold countLevel
  induction cas with
  | nil => rfl
  | cons c t ih =>
    by_cases h1 : c.risk_level = "high" <;>
      by_cases h2 : c.risk_level = "medium" <;>
        by_cases h3 : c.risk_level = "low" <;>
          simp_all [List.filter_cons] <;> omega

/-- Claim C1 (amended): when the backend summary reports positive
counts for all three levels, the aggregation produces exactly the three
buckets High, Medium, Low whose values are the numbers of input clauses
carrying each risk_level, and those three values add up to the number
of input clauses whose risk_level is one of high, medium and low, which
is at most (but not always equal to) the length of the input. -/
theorem aggregation_totals (hs ms ls : Int) (cas : List ClauseAssessment)
    (hh : 0 < hs) (hm : 0 < ms) (hl : 0 < ls) :
    (processRiskData hs ms ls cas).map (fun b => (b.name, b.value)) =
      [("High", countLevel "high" cas), ("Medium", countLevel "medium" cas),
       ("Low", countLevel "low" cas)]
  ∧ countLevel "high" cas + countLevel "medium" cas + countLevel "low" cas
      = (cas.filter (fun c => c.risk_level == "high" || c.risk_level == "medium"
          || c.risk_level == "low")).length
  ∧ countLevel "high" cas + countLevel "medium" cas + countLevel "low" cas
      ≤ cas.length := by
  refine ⟨?_, countLevel_sum cas, ?_⟩
  · unfold processRiskData
    rw [if_pos hh, if_pos hm, if_pos hl]
    simp [countLevel]
  · rw [countLevel_sum cas]
    exact List.length_filter_le _ _

/-- Witness for claim C1 at a concrete one-clause input. -/
theorem aggregation_totals_witness :
    (processRiskData 1 1 1 [⟨"high", "r"⟩]).map (fun b => (b.name, b.value)) =
      [("High", countLevel "high" [⟨"high", "r"⟩]),
       ("Medium", countLevel "medium" [⟨"high", "r"⟩]),
       ("Low", countLevel "low" [⟨"high", "r"⟩])] := by
  have h := aggregation_totals 1 1 1 [⟨"high", "r"⟩] (by decide) (by decide) (by decide)
  exact h.1

/-- Counterexample to claim C1 as stated: casMixed contains one clause
of risk_level high among two clauses, yet the aggregation of
payloadMixed, whose summary reports no counts, produces no High bucket
at all, and the per-level counts 1, 0, 0 do not add up to the two
clauses of the input. -/
theorem aggregation_totals_ce :
    countLevel "high" casMixed = 1
  ∧ countLevel "medium" casMixed = 0
  ∧ countLevel "low" casMixed = 0
  ∧ casMixed.length = 2
  ∧ ¬ ∃ b ∈ (processResponseData payloadMixed "contract.pdf").risk_data,
      b.name = "High" := by
  refine ⟨rfl, rfl, rfl, rfl, ?_⟩
  decide

/-- Claim C2 (amended): the aggregation returns at most three buckets,
those present appearing in the order High, Medium, Low, and on the
fully empty payload it returns no buckets at all rather than three
zero-valued ones. -/
theorem bucket_order_and_empty :
    (∀ (hs ms ls : Int) (cas : List ClauseAssessment),
      ((processRiskData hs ms ls cas).map RiskData.name).Sublist ["High", "Medium", "Low"])
  ∧ (processResponseData emptyPayload "contract.pdf").risk_data = [] := by
  constructor
  · intro hs ms ls cas
    unfold processRiskData
    by_cases h1 : hs > 0 <;> by_cases h2 : ms > 0 <;> by_cases h3 : ls > 0 <;>
      simp [h1, h2, h3]
  · rfl

/-- Counterexample to claim C2 as stated: the empty payload yields zero
buckets, not three. -/
theorem bucket_count_ce :
    (processResponseData emptyPayload "contract.pdf").risk_data.length ≠ 3 := by
  decide

/-- Claim C3 (amended): for every payload the normalized
flagged_clauses equals the sum of the backend-reported high and medium
counts; the bound by total_clauses claimed alongside does not hold in
general. -/
theorem flagged_eq_backend_counts (p : ResponsePayload) (f : String) :
    (processResponseData p f).flagged_clauses =
      jsNumOr ((p.risk_summary.getD ⟨none, none, none, none⟩).high_risk_clauses) 0 +
      jsNumOr ((p.risk_summary.getD ⟨none, none, none, none⟩).medium_risk_clauses) 0 := rfl

/-- Counterexample to claim C3 as stated: a payload reporting one
high-risk clause and no assessed total normalizes to flagged_clauses 1
and total_clauses 0, violating the claimed bound. -/
theorem flagged_le_total_ce :
    ¬ ((processResponseData payloadHighOnly "contract.pdf").flagged_clauses ≤
        (processResponseData payloadHighOnly "contract.pdf").total_clauses) := by
  decide

/-- Claim C6 (amended): the normalized total_clauses is exactly the
backend-reported total_clauses_assessed with the JavaScript || default
of 0; the size of the clause-assessment list never enters, so the total
can drop below it, as payloadOneHigh shows. -/
theorem total_clauses_from_backend :
    (∀ (p : ResponsePayload) (f : String),
      (processResponseData p f).total_clauses =
        jsNumOr ((p.risk_summary.getD ⟨none, none, none, none⟩).total_clauses_assessed) 0)
  ∧ (processResponseData payloadOneHigh "contract.pdf").total_clauses = 0 :=
  ⟨fun _ _ => rfl, rfl⟩

/-- Counterexample to claim C6 as stated: payloadOneHigh carries one
clause assessment but normalizes to total_clauses 0, below the size of
the input sequence. -/
theorem total_below_assessments_ce :
    (processResponseData payloadOneHigh "contract.pdf").total_clauses <
      (((payloadOneHigh.risk_assessment.getD ⟨none, none⟩).clause_assessments.getD
        []).length : Int) := by
  decide

/-- Claim C7 (amended): page_count falls back to 24 when the backend
field is absent or zero, and every nonzero backend value, negative ones
included, is kept. -/
theorem page_count_defaulting (p : ResponsePayload) (f : String) :
    (p.page_count = none → (processResponseData p f).page_count = 24)
  ∧ (p.page_count = some 0 → (processResponseData p f).page_count = 24)
  ∧ (∀ n : Int, p.page_count = some n → n ≠ 0 →
      (processResponseData p f).page_count = n) := by
  refine ⟨?_, ?_, ?_⟩
  · intro h
    show jsNumOr p.page_count 24 = 24
    rw [h]
    rfl
  · intro h
    show jsNumOr p.page_count 24 = 24
    rw [h]
    rfl
  · intro n h hn
    show jsNumOr p.page_count 24 = n
    rw [h]
    simp [jsNumOr, hn]

/-- Witness for claim C7 at concrete payloads. -/
theorem page_count_defaulting_witness :
    (processResponseData emptyPayload "contract.pdf").page_count = 24
  ∧ (processResponseData payloadNegPage "contract.pdf").page_count = -5 :=
  ⟨(page_count_defaulting emptyPayload "contract.pdf").1 rfl,
   (page_count_defaulting payloadNegPage "contract.pdf").2.2 (-5) rfl (by decide)⟩

/-- Counterexample to claim C7 as stated: the non-positive backend
page_count of -5 is kept, not replaced by 24. -/
theorem page_count_negative_kept_ce :
    (processResponseData payloadNegPage "contract.pdf").page_count ≠ 24 := by
  decide

/-- Claim C8 (amended): for every query that is not entirely
whitespace, the search returns exactly those clauses, reordered only by
the risk sort, whose lowercased title-summary-impact text contains at
least one piece of the lowercased query split on the space character,
an OR across pieces; splitting is on the space character alone, not on
general whitespace. -/
theorem search_or_token_semantics (clauses : List DetailedAnalysis.Clause)
    (query : String) (c : DetailedAnalysis.Clause)
    (hq : query.data.all Char.isWhitespace = false) :
    c ∈ DetailedAnalysis.performSemanticSearch clauses query ↔
      c ∈ clauses ∧ DetailedAnalysis.clauseMatches query c = true := by
  unfold DetailedAnalysis.performSemanticSearch
  rw [if_neg (by simp [hq])]
  unfold DetailedAnalysis.sortClausesByRisk
  rw [List.mem_mergeSort, List.mem_filter]

/-- Witness for claim C8: the loose OR search keeps a clause that
mentions termination but not liability. -/
theorem search_or_token_semantics_witness :
    clTermination ∈ DetailedAnalysis.performSemanticSearch [clTermination]
      "termination liability" :=
  (search_or_token_semantics [clTermination] "termination liability" clTermination
    (by decide)).mpr (by decide)

/-- Counterexample to claim C8 as stated: with the tab-separated query,
whitespace-splitting yields the tokens a and b and the claim would keep
clauseABC, but the code splits on spaces only, finds no occurrence of
the single term, and returns nothing. -/
theorem search_tokenization_ce :
    DetailedAnalysis.specTokenMatch "a\tb" clauseABC = true
  ∧ clauseABC ∉ DetailedAnalysis.performSemanticSearch [clauseABC] "a\tb" := by
  constructor
  · decide
  · unfold DetailedAnalysis.performSemanticSearch
    rw [if_neg (by decide)]
    unfold DetailedAnalysis.sortClausesByRisk
    rw [List.mem_mergeSort]
    decide
